import Mathlib

/-!
Shallow embedding of the orbital propagation engine of the
Space-Systems repository (files `satellite.py` and `orbital_mechanics.py`).

Python floats are modelled as real numbers; Python functions that can
raise are modelled as `Except String` computations; dynamically typed
arguments (the constructor inputs and the comparison operands) are
modelled by the tagged universe `PyVal`.  All definitions are translated
from the source; names follow the source where Lean allows it.
-/

/-- Python's float modulus `x % m` for positive modulus `m`
(`numpy`/Python semantics: `x - m * floor (x / m)`).  Used by the Kepler
solver to normalize the mean anomaly (satellite.py line 106). -/
noncomputable def pymod (x m : ℝ) : ℝ := x - m * ⌊x / m⌋

/-- One Newton iteration of the Kepler solver
(satellite.py lines 110-117): `E - f E / f' E` with
`f E = E - e * sin E - M` and `f' E = 1 - e * cos E`. -/
noncomputable def newtonStep (e M E : ℝ) : ℝ :=
  E - (E - e * Real.sin E - M) / (1 - e * Real.cos E)

/-- The sequence of Newton iterates of the Kepler solver, starting from
the initial guess `E0`. -/
noncomputable def keplerIter (e M E0 : ℝ) : ℕ → ℝ
  | 0 => E0
  | n + 1 => newtonStep e M (keplerIter e M E0 n)

/-- The `for _ in range(max_iterations)` loop of
`Satellite.solve_kepler_equation` (satellite.py lines 109-125): compute
the next iterate; if it moved less than `tol`, return it immediately;
when the iteration budget runs out, return the last computed value. -/
noncomputable def keplerLoop (e M tol : ℝ) : ℝ → ℕ → ℝ
  | E, 0 => E
  | E, n + 1 =>
    if |newtonStep e M E - E| < tol then newtonStep e M E
    else keplerLoop e M tol (newtonStep e M E) n

/-- The orbital element set stored by `Satellite.__init__`
(satellite.py lines 74-82).  The epoch (a `datetime`) is modelled as an
integer timestamp; it takes no part in the propagation math. -/
structure Satellite where
  name : String
  satellite_id : String
  inclination : ℝ
  eccentricity : ℝ
  semi_major_axis : ℝ
  mean_anomaly : ℝ
  raan : ℝ
  argument_of_perigee : ℝ
  epoch : ℤ

/-- Initial guess of the Kepler solver (satellite.py lines 100-103).
Note that it is computed from the raw, un-normalized mean anomaly: the
normalization `M % (2*pi)` happens on line 106, after this guess. -/
noncomputable def keplerE0 (s : Satellite) (mean_anomaly_rad : ℝ) : ℝ :=
  if s.eccentricity < 0.8 then mean_anomaly_rad else Real.pi

/-- `Satellite.solve_kepler_equation` (satellite.py lines 84-125). -/
noncomputable def solve_kepler_equation (s : Satellite)
    (mean_anomaly_rad tolerance : ℝ) (max_iterations : ℕ) : ℝ :=
  keplerLoop s.eccentricity (pymod mean_anomaly_rad (2 * Real.pi)) tolerance
    (keplerE0 s mean_anomaly_rad) max_iterations

/-- The Newton-iterate sequence the solver actually walks for a given
call: target is the normalized mean anomaly, start is the initial guess. -/
noncomputable def keplerSeq (s : Satellite) (mean_anomaly_rad : ℝ) : ℕ → ℝ :=
  keplerIter s.eccentricity (pymod mean_anomaly_rad (2 * Real.pi))
    (keplerE0 s mean_anomaly_rad)

/-- `numpy.arctan2 y x`, modelled as the argument of the complex number
`x + y*i` (range `(-pi, pi]`). -/
noncomputable def arctan2 (y x : ℝ) : ℝ := Complex.arg ⟨x, y⟩

/-- True anomaly from eccentric anomaly (satellite.py lines 161-165):
circular-orbit branch when the eccentricity is below `1e-10`. -/
noncomputable def true_anomaly_of (s : Satellite) (E : ℝ) : ℝ :=
  if s.eccentricity < 1e-10 then E
  else 2 * arctan2 (Real.sqrt ((1 + s.eccentricity) / (1 - s.eccentricity)) *
    Real.sin (E / 2)) (Real.cos (E / 2))

/-- Rotation about the z-axis as performed componentwise by the source
(satellite.py lines 195-197 and 205-207). -/
noncomputable def rot_z (ang : ℝ) (v : ℝ × ℝ × ℝ) : ℝ × ℝ × ℝ :=
  (v.1 * Real.cos ang - v.2.1 * Real.sin ang,
   v.1 * Real.sin ang + v.2.1 * Real.cos ang,
   v.2.2)

/-- Rotation about the x-axis as performed componentwise by the source
(satellite.py lines 200-202). -/
noncomputable def rot_x (ang : ℝ) (v : ℝ × ℝ × ℝ) : ℝ × ℝ × ℝ :=
  (v.1,
   v.2.1 * Real.cos ang - v.2.2 * Real.sin ang,
   v.2.1 * Real.sin ang + v.2.2 * Real.cos ang)

/-- Squared Euclidean norm of a position triple
(`pos[0]**2 + pos[1]**2 + pos[2]**2`, orbital_mechanics.py line 217). -/
noncomputable def sq_norm (v : ℝ × ℝ × ℝ) : ℝ := v.1 ^ 2 + v.2.1 ^ 2 + v.2.2 ^ 2

/-- Euclidean norm of a position triple. -/
noncomputable def pos_norm (v : ℝ × ℝ × ℝ) : ℝ := Real.sqrt (sq_norm v)

/-- Body of `Satellite.calculate_position` after the negative-time guard
(satellite.py lines 146-209): mean motion, mean anomaly at time, Kepler
solve, true anomaly, radius, perifocal coordinates, then the rotation
chain `R_z(raan) * R_x(i) * R_z(arg_perigee)`.  `np.radians x` is
`x * pi / 180`. -/
noncomputable def position_core (s : Satellite) (t : ℝ) : ℝ × ℝ × ℝ :=
  let mu : ℝ := 398600.4418
  let mean_motion := Real.sqrt (mu / s.semi_major_axis ^ 3)
  let mean_anomaly_at_time := s.mean_anomaly * Real.pi / 180 + mean_motion * t
  let E := solve_kepler_equation s mean_anomaly_at_time (1e-10) 100
  let nu := true_anomaly_of s E
  let r := s.semi_major_axis * (1 - s.eccentricity ^ 2) /
    (1 + s.eccentricity * Real.cos nu)
  rot_z (s.raan * Real.pi / 180)
    (rot_x (s.inclination * Real.pi / 180)
      (rot_z (s.argument_of_perigee * Real.pi / 180)
        (r * Real.cos nu, r * Real.sin nu, 0)))

/-- `Satellite.calculate_position` (satellite.py lines 127-209): raises
`ValueError` when the elapsed time is negative (lines 143-144),
otherwise returns the computed coordinates.  The function never mutates
the element set: it is a pure function of `s` and `t` by construction. -/
noncomputable def calculate_position (s : Satellite) (t : ℝ) :
    Except String (ℝ × ℝ × ℝ) :=
  if t < 0 then Except.error "Time delta cannot be negative"
  else Except.ok (position_core s t)

/-- `Satellite.get_altitude` (satellite.py lines 211-222). -/
noncomputable def get_altitude (s : Satellite) : ℝ := s.semi_major_axis - 6371.0

/-- `Satellite.get_perigee_altitude` (satellite.py lines 224-233). -/
noncomputable def get_perigee_altitude (s : Satellite) : ℝ :=
  s.semi_major_axis * (1 - s.eccentricity) - 6371.0

/-- `Satellite.get_apogee_altitude` (satellite.py lines 235-244). -/
noncomputable def get_apogee_altitude (s : Satellite) : ℝ :=
  s.semi_major_axis * (1 + s.eccentricity) - 6371.0

/-- `calculate_orbital_period` (orbital_mechanics.py lines 176-195):
Kepler's third law.  (The `isinstance` guard is statically satisfied
since the argument is a `Satellite` here.) -/
noncomputable def calculate_orbital_period (s : Satellite) : ℝ :=
  2 * Real.pi * Real.sqrt (s.semi_major_axis ^ 3 / 398600.4418)

/-- `calculate_velocity` (orbital_mechanics.py lines 198-225): vis-viva
equation at the radius obtained from `calculate_position`; an exception
from the position computation propagates. -/
noncomputable def calculate_velocity (s : Satellite) (t : ℝ) :
    Except String ℝ :=
  (calculate_position s t).map (fun pos =>
    Real.sqrt (398600.4418 * (2 / pos_norm pos - 1 / s.semi_major_axis)))

/-- `predict_future_positions` (orbital_mechanics.py lines 92-141):
validates positivity of duration and resolution, truncates
`total_minutes / effective_resolution` to an integer point count, then
collects `i * effective_resolution * 60` for `i < num_points`, keeping a
sample only when it does not exceed `time_hours * 3600`.  The position
query is the (guard-free) core: every generated sample time is
non-negative, so the call cannot raise. -/
noncomputable def predict_future_positions (s : Satellite)
    (time_hours resolution_minutes smooth_factor : ℝ) :
    Except String (List ℝ × List (ℝ × ℝ × ℝ)) :=
  if time_hours ≤ 0 then Except.error "time_hours must be positive"
  else if resolution_minutes ≤ 0 then
    Except.error "resolution_minutes must be positive"
  else
    let effective_resolution := resolution_minutes / smooth_factor
    let total_minutes := time_hours * 60
    let num_points := (⌊total_minutes / effective_resolution⌋).toNat
    let time_points := ((List.range num_points).map
        (fun (i : ℕ) => (i : ℝ) * effective_resolution * 60)).filter
      (fun tp => decide (tp ≤ time_hours * 3600))
    Except.ok (time_points, time_points.map (position_core s))

/-- The `while current_time <= total_seconds` loop of the position
generator (orbital_mechanics.py lines 169-173), run with an iteration
budget.  The budget is only a device to express the loop by structural
recursion: callers pass a budget strictly larger than the number of
iterations the loop actually performs. -/
noncomputable def gen_loop (pos : ℝ → ℝ × ℝ × ℝ) (total res : ℝ) :
    ℝ → ℕ → List (ℝ × (ℝ × ℝ × ℝ))
  | _, 0 => []
  | current, n + 1 =>
    if current ≤ total then
      (current, pos current) :: gen_loop pos total res (current + res) n
    else []

/-- `generate_position_generator` (orbital_mechanics.py lines 144-173):
the full (finite, for positive resolution) sequence of pairs the fresh
generator yields when consumed to exhaustion. -/
noncomputable def generate_position_generator (s : Satellite)
    (time_hours resolution_minutes : ℝ) : List (ℝ × (ℝ × ℝ × ℝ)) :=
  let total_seconds := time_hours * 3600
  let resolution_seconds := resolution_minutes * 60
  gen_loop (position_core s) total_seconds resolution_seconds 0
    ((⌊total_seconds / resolution_seconds⌋).toNat + 2)

/-- Tagged universe of Python values that can reach the dynamically
typed entry points: strings, numbers, datetimes, satellites, and `None`
(standing for any other non-satellite, non-string, non-number value). -/
inductive PyVal where
  | str : String → PyVal
  | num : ℝ → PyVal
  | dt : ℤ → PyVal
  | sat : Satellite → PyVal
  | pynone : PyVal

/-- Constructor check `isinstance(v, str) and v` (satellite.py
lines 52-55): a non-string or empty-string value fails. -/
def reqNonEmptyStr (v : PyVal) (msg : String) : Except String String :=
  match v with
  | PyVal.str s => if s = "" then Except.error msg else Except.ok s
  | _ => Except.error msg

/-- Constructor check `isinstance(v, (int, float))` followed by a range
test (satellite.py lines 57-71): a non-number, or a number satisfying
the `bad` range condition, fails. -/
noncomputable def reqNum (v : PyVal) (bad : ℝ → Prop) [DecidablePred bad]
    (msg : String) : Except String ℝ :=
  match v with
  | PyVal.num x => if bad x then Except.error msg else Except.ok x
  | _ => Except.error msg

/-- Constructor check `isinstance(epoch, datetime)` (satellite.py
lines 66-67). -/
def reqDt (v : PyVal) (msg : String) : Except String ℤ :=
  match v with
  | PyVal.dt t => Except.ok t
  | _ => Except.error msg

/-- `Satellite.__init__` (satellite.py lines 32-82): the validation
sequence, in source order, followed by attribute assignment. -/
noncomputable def mkSatellite (name satellite_id inclination eccentricity
    semi_major_axis mean_anomaly epoch raan argument_of_perigee : PyVal) :
    Except String Satellite := do
  let n ← reqNonEmptyStr name "Satellite name must be a non-empty string"
  let sid ← reqNonEmptyStr satellite_id "Satellite ID must be a non-empty string"
  let incl ← reqNum inclination (fun x => x < 0 ∨ x > 180)
    "Inclination must be a number between 0 and 180 degrees"
  let ecc ← reqNum eccentricity (fun x => x < 0 ∨ x ≥ 1)
    "Eccentricity must be a number between 0 and 1"
  let sma ← reqNum semi_major_axis (fun x => x ≤ 0)
    "Semi-major axis must be a positive number"
  let ma ← reqNum mean_anomaly (fun _ => False)
    "Mean anomaly must be a number"
  let ep ← reqDt epoch "Epoch must be a datetime object"
  let om ← reqNum raan (fun x => x < 0 ∨ x ≥ 360)
    "RAAN must be a number between 0 and 360 degrees"
  let agp ← reqNum argument_of_perigee (fun x => x < 0 ∨ x ≥ 360)
    "Argument of perigee must be a number between 0 and 360 degrees"
  Except.ok ⟨n, sid, incl, ecc, sma, ma, om, agp, ep⟩

/-- `Satellite.__eq__` (satellite.py lines 266-280): `False` for a
non-satellite operand, identifier comparison otherwise. -/
def sat_eq (self : Satellite) (other : PyVal) : Bool :=
  match other with
  | PyVal.sat o => self.satellite_id == o.satellite_id
  | _ => false

/-- `Satellite.__lt__` (satellite.py lines 282-296): `TypeError` for a
non-satellite operand, altitude comparison otherwise. -/
noncomputable def sat_lt (self : Satellite) (other : PyVal) :
    Except String Bool :=
  match other with
  | PyVal.sat o => Except.ok (decide (get_altitude self < get_altitude o))
  | _ => Except.error "Cannot compare Satellite with non-Satellite"

/-- `Satellite.__le__` (satellite.py lines 298-302). -/
noncomputable def sat_le (self : Satellite) (other : PyVal) :
    Except String Bool :=
  match other with
  | PyVal.sat o => Except.ok (decide (get_altitude self ≤ get_altitude o))
  | _ => Except.error "Cannot compare Satellite with non-Satellite"

/-- `Satellite.__gt__` (satellite.py lines 304-308). -/
noncomputable def sat_gt (self : Satellite) (other : PyVal) :
    Except String Bool :=
  match other with
  | PyVal.sat o => Except.ok (decide (get_altitude self > get_altitude o))
  | _ => Except.error "Cannot compare Satellite with non-Satellite"

/-- `Satellite.__ge__` (satellite.py lines 310-314). -/
noncomputable def sat_ge (self : Satellite) (other : PyVal) :
    Except String Bool :=
  match other with
  | PyVal.sat o => Except.ok (decide (get_altitude self ≥ get_altitude o))
  | _ => Except.error "Cannot compare Satellite with non-Satellite"

/-- Whether an `Except` computation raised. -/
def isError {α : Type} (e : Except String α) : Bool :=
  match e with
  | Except.error _ => true
  | Except.ok _ => false

/-- Unfolding lemma: the next Newton iterate. -/
theorem keplerIter_succ (e M E0 : ℝ) (n : ℕ) :
    keplerIter e M E0 (n + 1) = newtonStep e M (keplerIter e M E0 n) := rfl

/-- If no step within the budget moves less than the tolerance, the loop
runs its whole budget and returns the final iterate. -/
theorem keplerLoop_no_conv (e M tol E0 : ℝ) :
    ∀ n i : ℕ,
      (∀ j, i ≤ j → j < i + n →
        ¬(|keplerIter e M E0 (j + 1) - keplerIter e M E0 j| < tol)) →
      keplerLoop e M tol (keplerIter e M E0 i) n = keplerIter e M E0 (i + n) := by
  intro n
  induction n with
  | zero => intro i _; simp [keplerLoop]
  | succ n ih =>
    intro i h
    have hstep : newtonStep e M (keplerIter e M E0 i) = keplerIter e M E0 (i + 1) := rfl
    have hcond : ¬(|keplerIter e M E0 (i + 1) - keplerIter e M E0 i| < tol) :=
      h i le_rfl (by omega)
    have : keplerLoop e M tol (keplerIter e M E0 i) (n + 1) =
        keplerLoop e M tol (keplerIter e M E0 (i + 1)) n := by
      simp only [keplerLoop, hstep]
      rw [if_neg hcond]
    rw [this, ih (i + 1) (fun j hj hj2 => h j (by omega) (by omega))]
    congr 1
    omega

/-- If the first step that moves less than the tolerance is step
`k + 1` and it happens within the budget, the loop returns that iterate
immediately. -/
theorem keplerLoop_conv (e M tol E0 : ℝ) :
    ∀ n i k : ℕ, i ≤ k → k < i + n →
      |keplerIter e M E0 (k + 1) - keplerIter e M E0 k| < tol →
      (∀ j, i ≤ j → j < k →
        ¬(|keplerIter e M E0 (j + 1) - keplerIter e M E0 j| < tol)) →
      keplerLoop e M tol (keplerIter e M E0 i) n = keplerIter e M E0 (k + 1) := by
  intro n
  induction n with
  | zero => intro i k h1 h2; omega
  | succ n ih =>
    intro i k hik hk hc hmin
    have hstep : newtonStep e M (keplerIter e M E0 i) = keplerIter e M E0 (i + 1) := rfl
    by_cases hi : |keplerIter e M E0 (i + 1) - keplerIter e M E0 i| < tol
    · have hki : k = i := by
        by_contra hne
        exact hmin i le_rfl (by omega) hi
      subst hki
      simp only [keplerLoop, hstep]
      rw [if_pos hi]
    · have hik1 : i + 1 ≤ k := by
        rcases Nat.eq_or_lt_of_le hik with h | h
        · exact absurd (h ▸ hc) hi
        · omega
      have : keplerLoop e M tol (keplerIter e M E0 i) (n + 1) =
          keplerLoop e M tol (keplerIter e M E0 (i + 1)) n := by
        simp only [keplerLoop, hstep]
        rw [if_neg hi]
      rw [this]
      exact ih (i + 1) k hik1 (by omega) hc (fun j hj hj2 => hmin j (by omega) hj2)

/-- The loop always returns some Newton iterate reached within the
budget: the solver is total and never signals failure. -/
theorem keplerLoop_is_iter (e M tol E0 : ℝ) :
    ∀ n i : ℕ, ∃ k, k ≤ n ∧
      keplerLoop e M tol (keplerIter e M E0 i) n = keplerIter e M E0 (i + k) := by
  intro n
  induction n with
  | zero => intro i; exact ⟨0, le_rfl, by simp [keplerLoop]⟩
  | succ n ih =>
    intro i
    have hstep : newtonStep e M (keplerIter e M E0 i) = keplerIter e M E0 (i + 1) := rfl
    by_cases hi : |keplerIter e M E0 (i + 1) - keplerIter e M E0 i| < tol
    · refine ⟨1, by omega, ?_⟩
      simp only [keplerLoop, hstep]
      rw [if_pos hi]
    · obtain ⟨k, hk, he⟩ := ih (i + 1)
      refine ⟨k + 1, by omega, ?_⟩
      have : keplerLoop e M tol (keplerIter e M E0 i) (n + 1) =
          keplerLoop e M tol (keplerIter e M E0 (i + 1)) n := by
        simp only [keplerLoop, hstep]
        rw [if_neg hi]
      rw [this, he]
      congr 1
      omega

/-- The solver's result, expressed through the iterate sequence. -/
theorem solve_eq_loop (s : Satellite) (M tol : ℝ) (cap : ℕ) :
    solve_kepler_equation s M tol cap =
      keplerLoop s.eccentricity (pymod M (2 * Real.pi)) tol (keplerSeq s M 0) cap := rfl

/-- C4: the Kepler solver is best-effort and total.  For every
eccentricity, mean anomaly, tolerance and iteration cap it returns a
value, and that value is a Newton iterate reached within the cap; if
some iteration first moves less than the tolerance inside the cap, the
solver returns that iterate immediately; if no iteration inside the cap
converges, the solver returns the last computed iterate instead of
signalling failure. -/
theorem kepler_solver_best_effort (s : Satellite) (M tol : ℝ) (cap : ℕ) :
    (∃ k, k ≤ cap ∧ solve_kepler_equation s M tol cap = keplerSeq s M k) ∧
    (∀ k, k < cap → |keplerSeq s M (k + 1) - keplerSeq s M k| < tol →
      (∀ j, j < k → ¬(|keplerSeq s M (j + 1) - keplerSeq s M j| < tol)) →
      solve_kepler_equation s M tol cap = keplerSeq s M (k + 1)) ∧
    ((∀ j, j < cap → ¬(|keplerSeq s M (j + 1) - keplerSeq s M j| < tol)) →
      solve_kepler_equation s M tol cap = keplerSeq s M cap) := by
  refine ⟨?_, ?_, ?_⟩
  · obtain ⟨k, hk, he⟩ :=
      keplerLoop_is_iter s.eccentricity (pymod M (2 * Real.pi)) tol
        (keplerE0 s M) cap 0
    exact ⟨k, hk, by rw [solve_eq_loop]; simpa using he⟩
  · intro k hk hc hmin
    rw [solve_eq_loop]
    exact keplerLoop_conv s.eccentricity (pymod M (2 * Real.pi)) tol
      (keplerE0 s M) cap 0 k (Nat.zero_le k) (by omega) hc
      (fun j _ hj2 => hmin j hj2)
  · intro hmin
    rw [solve_eq_loop]
    have := keplerLoop_no_conv s.eccentricity (pymod M (2 * Real.pi)) tol
      (keplerE0 s M) cap 0 (fun j _ hj2 => hmin j (by omega))
    simpa using this

/-- A concrete valid element set with eccentricity 0 (circular orbit),
used to instantiate the solver claims. -/
noncomputable def s0 : Satellite := ⟨"SAT-A", "ID-A", 0, 0, 7000, 0, 0, 0, 0⟩

/-- The eccentricity of the concrete element set. -/
theorem s0_ecc : s0.eccentricity = 0 := rfl

/-- Normalization of the mean anomaly 7 into the fundamental interval:
`7 % (2*pi) = 7 - 2*pi`, because `2*pi <= 7 < 4*pi`. -/
theorem pymod_seven : pymod 7 (2 * Real.pi) = 7 - 2 * Real.pi := by
  have hpi3 : (3 : ℝ) < Real.pi := Real.pi_gt_three
  have hpi315 : Real.pi < 3.15 := Real.pi_lt_d2
  have h2pi : (0 : ℝ) < 2 * Real.pi := by linarith
  have hfl : ⌊(7 : ℝ) / (2 * Real.pi)⌋ = 1 := by
    rw [Int.floor_eq_iff]
    constructor
    · push_cast
      rw [le_div_iff₀ h2pi]
      linarith
    · push_cast
      rw [div_lt_iff₀ h2pi]
      linarith
  rw [pymod, hfl]
  push_cast
  ring

/-- The solver's initial guess at mean anomaly 7 for `s0`:
the low-eccentricity branch returns the raw, un-normalized argument. -/
theorem s0_E0 : keplerE0 s0 7 = 7 := by
  rw [keplerE0, s0_ecc, if_pos]
  norm_num

/-- Iterate 0 of the solver run on `s0` at mean anomaly 7. -/
theorem s0_seq0 : keplerSeq s0 7 0 = 7 := s0_E0

/-- Iterate 1 of the solver run on `s0` at mean anomaly 7: with zero
eccentricity a single Newton step lands exactly on the normalized mean
anomaly. -/
theorem s0_seq1 : keplerSeq s0 7 1 = 7 - 2 * Real.pi := by
  show newtonStep s0.eccentricity (pymod 7 (2 * Real.pi)) (keplerSeq s0 7 0) =
    7 - 2 * Real.pi
  rw [s0_seq0, s0_ecc, newtonStep, pymod_seven]
  simp only [zero_mul, sub_zero, div_one]
  ring

/-- Iterate 2 of the solver run on `s0` at mean anomaly 7: the iteration
has reached a fixed point. -/
theorem s0_seq2 : keplerSeq s0 7 2 = 7 - 2 * Real.pi := by
  show newtonStep s0.eccentricity (pymod 7 (2 * Real.pi)) (keplerSeq s0 7 1) =
    7 - 2 * Real.pi
  rw [s0_seq1, s0_ecc, newtonStep, pymod_seven]
  simp only [zero_mul, sub_zero, div_one]
  ring

/-- The first Newton step on `s0` at mean anomaly 7 moves by `2*pi`,
far above the default tolerance. -/
theorem s0_step0_big : ¬(|keplerSeq s0 7 1 - keplerSeq s0 7 0| < 1e-10) := by
  rw [s0_seq1, s0_seq0]
  have hpi3 : (3 : ℝ) < Real.pi := Real.pi_gt_three
  rw [abs_of_nonpos (by linarith)]
  push_neg
  norm_num
  linarith

/-- The solver run on `s0` at mean anomaly 7 with default tolerance and
cap returns `7 - 2*pi` (it converges at the second iteration). -/
theorem s0_solve : solve_kepler_equation s0 7 (1e-10) 100 = 7 - 2 * Real.pi := by
  have h := keplerLoop_conv s0.eccentricity (pymod 7 (2 * Real.pi)) (1e-10)
    (keplerE0 s0 7) 100 0 1 (by omega) (by omega)
    (by
      have h2 : keplerIter s0.eccentricity (pymod 7 (2 * Real.pi)) (keplerE0 s0 7) 2 =
          keplerSeq s0 7 2 := rfl
      have h1 : keplerIter s0.eccentricity (pymod 7 (2 * Real.pi)) (keplerE0 s0 7) 1 =
          keplerSeq s0 7 1 := rfl
      rw [h2, h1, s0_seq2, s0_seq1]
      norm_num)
    (by
      intro j _ hj
      have hj0 : j = 0 := by omega
      subst hj0
      exact s0_step0_big)
  rw [solve_eq_loop]
  have h0 : keplerSeq s0 7 0 = keplerIter s0.eccentricity (pymod 7 (2 * Real.pi)) (keplerE0 s0 7) 0 := rfl
  rw [h0, h]
  have h2 : keplerIter s0.eccentricity (pymod 7 (2 * Real.pi)) (keplerE0 s0 7) 2 =
      keplerSeq s0 7 2 := rfl
  rw [h2, s0_seq2]

/-- C1 counterexample: for the valid element set `s0` (eccentricity 0,
inside `[0, 0.9]`) and the real mean anomaly `M = 7`, the value returned
by `solve_kepler_equation` with default tolerance `1e-10` and cap 100
has Kepler residual `2*pi` with respect to the mean anomaly that was
passed in, because the solver normalizes `M` into `[0, 2*pi)` before
iterating: the claimed bound `|E - e*sin E - M| < 1e-8` fails. -/
theorem kepler_residual_counterexample :
    ¬(|solve_kepler_equation s0 7 (1e-10) 100 -
        s0.eccentricity * Real.sin (solve_kepler_equation s0 7 (1e-10) 100) - 7| < 1e-8) := by
  rw [s0_solve, s0_ecc]
  have hpi3 : (3 : ℝ) < Real.pi := Real.pi_gt_three
  rw [zero_mul, sub_zero, abs_of_nonpos (by linarith)]
  push_neg
  norm_num
  linarith

/-- Difference of sines is 1-Lipschitz. -/
theorem abs_sin_diff_le (a b : ℝ) : |Real.sin a - Real.sin b| ≤ |a - b| := by
  rw [Real.sin_sub_sin, abs_mul, abs_mul]
  have h1 : |Real.sin ((a - b) / 2)| ≤ |(a - b) / 2| := Real.abs_sin_le_abs
  have h2 : |Real.cos ((a + b) / 2)| ≤ 1 := Real.abs_cos_le_one _
  have h3 : |(a - b) / 2| = |a - b| / 2 := by rw [abs_div]; norm_num
  calc |(2 : ℝ)| * |Real.sin ((a - b) / 2)| * |Real.cos ((a + b) / 2)|
      ≤ |(2 : ℝ)| * |(a - b) / 2| * 1 := by
        apply mul_le_mul
        · apply mul_le_mul_of_nonneg_left h1 (abs_nonneg _)
        · exact h2
        · exact abs_nonneg _
        · positivity
    _ = |a - b| := by rw [h3]; rw [abs_of_nonneg (by norm_num : (0:ℝ) ≤ 2)]; ring

/-- C1 (amended): for eccentricity in `[0, 0.9]` and arbitrary real mean
anomaly, with default tolerance `1e-10` and cap 100, whenever some
iteration inside the cap moves less than the tolerance (the solver's
convergence test fires), the returned value `E` satisfies
`|E - e*sin E - (M mod 2*pi)| < 1e-8`: the residual is measured against
the mean anomaly normalized into `[0, 2*pi)`, which is the equation the
solver actually iterates on. -/
theorem kepler_normalized_residual (s : Satellite) (M : ℝ)
    (h0 : 0 ≤ s.eccentricity) (h9 : s.eccentricity ≤ 0.9)
    (hconv : ∃ k, k < 100 ∧ |keplerSeq s M (k + 1) - keplerSeq s M k| < 1e-10) :
    |solve_kepler_equation s M (1e-10) 100 -
      s.eccentricity * Real.sin (solve_kepler_equation s M (1e-10) 100) -
      pymod M (2 * Real.pi)| < 1e-8 := by
  classical
  have hP : ∃ k, k < 100 ∧ |keplerSeq s M (k + 1) - keplerSeq s M k| < 1e-10 := hconv
  set k0 := Nat.find hP with hk0def
  obtain ⟨hk0lt, hk0conv⟩ := Nat.find_spec hP
  have hmin : ∀ j, j < k0 → ¬(|keplerSeq s M (j + 1) - keplerSeq s M j| < 1e-10) := by
    intro j hj habs
    exact Nat.find_min hP hj ⟨by omega, habs⟩
  have hsolve : solve_kepler_equation s M (1e-10) 100 = keplerSeq s M (k0 + 1) := by
    rw [solve_eq_loop]
    exact keplerLoop_conv s.eccentricity (pymod M (2 * Real.pi)) (1e-10)
      (keplerE0 s M) 100 0 k0 (Nat.zero_le _) (by omega) hk0conv
      (fun j _ hj2 => hmin j hj2)
  set e := s.eccentricity with hedef
  set M' := pymod M (2 * Real.pi) with hMdef
  set E := keplerSeq s M k0 with hEdef
  set R := keplerSeq s M (k0 + 1) with hRdef
  have hRstep : R = newtonStep e M' E := rfl
  have hcos1 : Real.cos E ≤ 1 := Real.cos_le_one E
  have hcos2 : -1 ≤ Real.cos E := Real.neg_one_le_cos E
  have hfp : (0.1 : ℝ) ≤ 1 - e * Real.cos E := by nlinarith
  have hfpne : (1 - e * Real.cos E) ≠ 0 := by linarith
  have hfeq : E - e * Real.sin E - M' = (1 - e * Real.cos E) * (E - R) := by
    rw [hRstep, newtonStep]
    field_simp
  have key : R - e * Real.sin R - M' =
      e * Real.cos E * (R - E) - e * (Real.sin R - Real.sin E) := by
    have hsum : R - e * Real.sin R - M' =
        (E - e * Real.sin E - M') + (R - E) - e * (Real.sin R - Real.sin E) := by
      ring
    rw [hsum, hfeq]
    ring
  have hsin : |Real.sin R - Real.sin E| ≤ |R - E| := abs_sin_diff_le R E
  have hd : |R - E| < 1e-10 := hk0conv
  have habs1 : |e * Real.cos E * (R - E)| ≤ e * |R - E| := by
    have hc : |Real.cos E| ≤ 1 := Real.abs_cos_le_one E
    calc |e * Real.cos E * (R - E)| = e * |Real.cos E| * |R - E| := by
          rw [abs_mul, abs_mul, abs_of_nonneg h0]
      _ ≤ e * 1 * |R - E| := by gcongr
      _ = e * |R - E| := by ring
  have habs2 : |e * (Real.sin R - Real.sin E)| ≤ e * |R - E| := by
    calc |e * (Real.sin R - Real.sin E)| = e * |Real.sin R - Real.sin E| := by
          rw [abs_mul, abs_of_nonneg h0]
      _ ≤ e * |R - E| := by gcongr
  rw [hsolve]
  show |R - e * Real.sin R - M'| < 1e-8
  rw [key]
  calc |e * Real.cos E * (R - E) - e * (Real.sin R - Real.sin E)|
      ≤ |e * Real.cos E * (R - E)| + |e * (Real.sin R - Real.sin E)| :=
        abs_sub _ _
    _ ≤ e * |R - E| + e * |R - E| := add_le_add habs1 habs2
    _ < 1e-8 := by nlinarith [abs_nonneg (R - E)]

/-- Witness for the amended C1 theorem: the hypotheses are satisfiable;
on `s0` with mean anomaly 7 the convergence test fires at the second
iteration and the normalized residual is below `1e-8` (indeed zero). -/
theorem kepler_normalized_residual_witness :
    |solve_kepler_equation s0 7 (1e-10) 100 -
      s0.eccentricity * Real.sin (solve_kepler_equation s0 7 (1e-10) 100) -
      pymod 7 (2 * Real.pi)| < 1e-8 :=
  kepler_normalized_residual s0 7 (by rw [s0_ecc]) (by rw [s0_ecc]; norm_num)
    ⟨1, by norm_num, by rw [s0_seq2, s0_seq1]; norm_num⟩

/-- Witness for the C4 theorem: on `s0` with mean anomaly 7 the first
iteration moves by `2*pi` (no convergence) and the second moves by zero,
so the solver returns the second iterate immediately. -/
theorem kepler_solver_best_effort_witness :
    solve_kepler_equation s0 7 (1e-10) 100 = keplerSeq s0 7 2 :=
  (kepler_solver_best_effort s0 7 (1e-10) 100).2.1 1 (by norm_num)
    (by rw [s0_seq2, s0_seq1]; norm_num)
    (by
      intro j hj
      have hj0 : j = 0 := by omega
      subst hj0
      exact s0_step0_big)

/-- C3: for every valid element set, `calculate_position` raises exactly
when the elapsed time is negative, and `calculate_velocity` then fails
with the very same error because it obtains its radius through
`calculate_position`.  Both functions are pure: the element set is never
modified (they are functions of `s` in the embedding). -/
theorem negative_time_rejection (s : Satellite) (ha : 0 < s.semi_major_axis)
    (he0 : 0 ≤ s.eccentricity) (he1 : s.eccentricity < 1) (t : ℝ) :
    (calculate_position s t = Except.error "Time delta cannot be negative" ↔ t < 0) ∧
    (calculate_velocity s t = Except.error "Time delta cannot be negative" ↔ t < 0) := by
  by_cases ht : t < 0
  · rw [calculate_velocity, calculate_position, if_pos ht]
    simp [Except.map, ht]
  · rw [calculate_velocity, calculate_position, if_neg ht]
    simp [Except.map, ht]

/-- Witness for C3 at the valid element set `s0` and elapsed time `-1`. -/
theorem negative_time_rejection_witness :
    calculate_position s0 (-1) = Except.error "Time delta cannot be negative" ∧
    calculate_velocity s0 (-1) = Except.error "Time delta cannot be negative" := by
  have h := negative_time_rejection s0 (by norm_num [s0]) (by norm_num [s0])
    (by norm_num [s0]) (-1)
  exact ⟨h.1.mpr (by norm_num), h.2.mpr (by norm_num)⟩

/-- A z-rotation preserves the squared norm. -/
theorem sq_norm_rot_z (ang : ℝ) (v : ℝ × ℝ × ℝ) :
    sq_norm (rot_z ang v) = sq_norm v := by
  simp only [sq_norm, rot_z]
  linear_combination (v.1 ^ 2 + v.2.1 ^ 2) * Real.sin_sq_add_cos_sq ang

/-- An x-rotation preserves the squared norm. -/
theorem sq_norm_rot_x (ang : ℝ) (v : ℝ × ℝ × ℝ) :
    sq_norm (rot_x ang v) = sq_norm v := by
  simp only [sq_norm, rot_x]
  linear_combination (v.2.1 ^ 2 + v.2.2 ^ 2) * Real.sin_sq_add_cos_sq ang

/-- The norm of the rotated perifocal position is the orbital radius. -/
theorem pos_norm_rot_chain (a1 a2 a3 r nu : ℝ) (hr : 0 ≤ r) :
    pos_norm (rot_z a1 (rot_x a2 (rot_z a3 (r * Real.cos nu, r * Real.sin nu, 0)))) = r := by
  rw [pos_norm, sq_norm_rot_z, sq_norm_rot_x, sq_norm_rot_z]
  have h : sq_norm (r * Real.cos nu, r * Real.sin nu, 0) = r ^ 2 := by
    simp only [sq_norm]
    linear_combination r ^ 2 * Real.sin_sq_add_cos_sq nu
  rw [h, Real.sqrt_sq hr]

/-- The mean anomaly at elapsed time `t` (satellite.py lines 150-154). -/
noncomputable def mean_anomaly_at (s : Satellite) (t : ℝ) : ℝ :=
  s.mean_anomaly * Real.pi / 180 + Real.sqrt (398600.4418 / s.semi_major_axis ^ 3) * t

/-- The true anomaly used by the position computation at time `t`. -/
noncomputable def nu_at (s : Satellite) (t : ℝ) : ℝ :=
  true_anomaly_of s (solve_kepler_equation s (mean_anomaly_at s t) (1e-10) 100)

/-- The orbital radius used by the position computation at time `t`
(satellite.py line 171). -/
noncomputable def radius_at (s : Satellite) (t : ℝ) : ℝ :=
  s.semi_major_axis * (1 - s.eccentricity ^ 2) /
    (1 + s.eccentricity * Real.cos (nu_at s t))

/-- Unfolding of the position computation through its named stages. -/
theorem position_core_eq (s : Satellite) (t : ℝ) :
    position_core s t =
      rot_z (s.raan * Real.pi / 180)
        (rot_x (s.inclination * Real.pi / 180)
          (rot_z (s.argument_of_perigee * Real.pi / 180)
            (radius_at s t * Real.cos (nu_at s t),
             radius_at s t * Real.sin (nu_at s t), 0))) := rfl

/-- The denominator of the radius formula is positive for eccentricity
below 1. -/
theorem radius_den_pos (s : Satellite) (he0 : 0 ≤ s.eccentricity)
    (he1 : s.eccentricity < 1) (t : ℝ) :
    0 < 1 + s.eccentricity * Real.cos (nu_at s t) := by
  have h2 : -1 ≤ Real.cos (nu_at s t) := Real.neg_one_le_cos _
  have h3 : Real.cos (nu_at s t) ≤ 1 := Real.cos_le_one _
  nlinarith

/-- The orbital radius is non-negative for a valid element set. -/
theorem radius_nonneg (s : Satellite) (ha : 0 < s.semi_major_axis)
    (he0 : 0 ≤ s.eccentricity) (he1 : s.eccentricity < 1) (t : ℝ) :
    0 ≤ radius_at s t := by
  have hden := radius_den_pos s he0 he1 t
  have hfac : 0 < (1 - s.eccentricity) * (1 + s.eccentricity) := by
    apply mul_pos <;> linarith
  have hnum : 0 ≤ s.semi_major_axis * (1 - s.eccentricity ^ 2) := by nlinarith
  exact div_nonneg hnum hden.le

/-- For near-zero eccentricity the radius stays within `2e-10` relative
distance of the semi-major axis. -/
theorem radius_near_axis (s : Satellite) (ha : 0 < s.semi_major_axis)
    (he0 : 0 ≤ s.eccentricity) (he : s.eccentricity < 1e-10) (t : ℝ) :
    |radius_at s t - s.semi_major_axis| ≤ 2e-10 * s.semi_major_axis := by
  have he1 : s.eccentricity < 1 := lt_trans he (by norm_num)
  have hden := radius_den_pos s he0 he1 t
  set a := s.semi_major_axis with hadef
  set e := s.eccentricity with hedef
  set c := Real.cos (nu_at s t) with hcdef
  have hc1 : c ≤ 1 := Real.cos_le_one _
  have hc2 : -1 ≤ c := Real.neg_one_le_cos _
  have heq : radius_at s t - a = -(a * e * (e + c)) / (1 + e * c) := by
    rw [radius_at]
    field_simp
    ring
  rw [heq, abs_div, abs_of_pos hden, div_le_iff₀ hden, abs_neg, abs_mul]
  have h1 : |a * e| = a * e := abs_of_nonneg (by positivity)
  have h2 : |e + c| ≤ e + 1 := by
    have hee : |e| = e := abs_of_nonneg he0
    have hcc : |c| ≤ 1 := abs_le.mpr ⟨hc2, hc1⟩
    calc |e + c| ≤ |e| + |c| := abs_add e c
      _ ≤ e + 1 := by linarith
  rw [h1]
  have key : e * (e + 1) ≤ 2e-10 * (1 + e * c) := by
    nlinarith [mul_nonneg he0 (by linarith : (0 : ℝ) ≤ c + 1),
      mul_le_mul_of_nonneg_left he.le he0]
  calc a * e * |e + c| ≤ a * e * (e + 1) := by
        apply mul_le_mul_of_nonneg_left h2 (by positivity)
    _ = a * (e * (e + 1)) := by ring
    _ ≤ a * (2e-10 * (1 + e * c)) := mul_le_mul_of_nonneg_left key ha.le
    _ = 2e-10 * a * (1 + e * c) := by ring

/-- The distance of the position's norm from the semi-major axis, for
near-circular element sets. -/
theorem pos_norm_core_bound (s : Satellite) (ha : 0 < s.semi_major_axis)
    (he0 : 0 ≤ s.eccentricity) (he : s.eccentricity < 1e-10) (t : ℝ) :
    |pos_norm (position_core s t) - s.semi_major_axis| ≤
      2e-10 * s.semi_major_axis := by
  have he1 : s.eccentricity < 1 := lt_trans he (by norm_num)
  rw [position_core_eq, pos_norm_rot_chain _ _ _ _ _ (radius_nonneg s ha he0 he1 t)]
  exact radius_near_axis s ha he0 he t

/-- C5: for a valid element set with eccentricity below `1e-10` and any
two non-negative times, the Euclidean norms of the returned positions
each equal the semi-major axis within relative tolerance `2e-10`, hence
agree with each other within `4e-10` relative tolerance. -/
theorem circular_orbit_radius (s : Satellite) (ha : 0 < s.semi_major_axis)
    (he0 : 0 ≤ s.eccentricity) (he : s.eccentricity < 1e-10)
    (t1 t2 : ℝ) (ht1 : 0 ≤ t1) (ht2 : 0 ≤ t2) :
    ∀ p1 p2, calculate_position s t1 = Except.ok p1 →
      calculate_position s t2 = Except.ok p2 →
      |pos_norm p1 - s.semi_major_axis| ≤ 2e-10 * s.semi_major_axis ∧
      |pos_norm p2 - s.semi_major_axis| ≤ 2e-10 * s.semi_major_axis ∧
      |pos_norm p1 - pos_norm p2| ≤ 4e-10 * s.semi_major_axis := by
  intro p1 p2 h1 h2
  rw [calculate_position, if_neg (not_lt.mpr ht1)] at h1
  rw [calculate_position, if_neg (not_lt.mpr ht2)] at h2
  cases h1
  cases h2
  have b1 := pos_norm_core_bound s ha he0 he t1
  have b2 := pos_norm_core_bound s ha he0 he t2
  refine ⟨b1, b2, ?_⟩
  have htri := abs_sub_le (pos_norm (position_core s t1)) s.semi_major_axis
    (pos_norm (position_core s t2))
  have hcomm : |s.semi_major_axis - pos_norm (position_core s t2)| =
      |pos_norm (position_core s t2) - s.semi_major_axis| := abs_sub_comm _ _
  linarith

/-- Witness for C5: the concrete circular element set `s0`
(eccentricity 0, semi-major axis 7000 km) at times 0 and 3600. -/
theorem circular_orbit_radius_witness :
    |pos_norm (position_core s0 0) - s0.semi_major_axis| ≤
      2e-10 * s0.semi_major_axis ∧
    |pos_norm (position_core s0 3600) - s0.semi_major_axis| ≤
      2e-10 * s0.semi_major_axis ∧
    |pos_norm (position_core s0 0) - pos_norm (position_core s0 3600)| ≤
      4e-10 * s0.semi_major_axis :=
  circular_orbit_radius s0 (by norm_num [s0]) (by norm_num [s0])
    (by norm_num [s0]) 0 3600 (by norm_num) (by norm_num)
    (position_core s0 0) (position_core s0 3600)
    (by rw [calculate_position, if_neg (by norm_num : ¬((0 : ℝ) < 0))])
    (by rw [calculate_position, if_neg (by norm_num : ¬((3600 : ℝ) < 0))])

/-- C7: equality of element sets holds exactly when the satellite
identifiers are equal strings, for arbitrary (possibly different)
numeric orbital parameters on either side. -/
theorem equality_by_identity (s1 s2 : Satellite) :
    sat_eq s1 (PyVal.sat s2) = true ↔ s1.satellite_id = s2.satellite_id := by
  simp [sat_eq]

/-- Concrete low-orbit element set from the spec's ordering example
(semi-major axis 6778 km, altitude 407 km). -/
noncomputable def sLow : Satellite := ⟨"LEO", "L1", 51.6, 0.001, 6778, 0, 0, 0, 0⟩

/-- Concrete higher element set from the spec's ordering example
(semi-major axis 8000 km, altitude 1629 km). -/
noncomputable def sHigh : Satellite := ⟨"MEO", "H1", 51.6, 0.001, 8000, 0, 0, 0, 0⟩

/-- Two distinct element sets sharing the same semi-major axis, hence
the same mean altitude. -/
noncomputable def sA : Satellite := ⟨"A", "IDA", 0, 0, 7000, 0, 0, 0, 0⟩

/-- A second element set with the same altitude as `sA` but a different
identity. -/
noncomputable def sB : Satellite := ⟨"B", "IDB", 0, 0, 7000, 0, 0, 0, 0⟩

/-- C8 counterexample: the ordering operators do not form a total order
on element sets.  `sA` and `sB` have equal mean altitude, so each
compares less-than-or-equal to the other, yet they are unequal both as
program values (`__eq__` compares identifiers) and as records:
antisymmetry fails. -/
theorem altitude_order_not_antisymm :
    sat_le sA (PyVal.sat sB) = Except.ok true ∧
    sat_le sB (PyVal.sat sA) = Except.ok true ∧
    sat_eq sA (PyVal.sat sB) = false ∧ sA ≠ sB := by
  refine ⟨?_, ?_, ?_, ?_⟩
  · simp [sat_le, get_altitude, sA, sB]
  · simp [sat_le, get_altitude, sA, sB]
  · simp [sat_eq, sA, sB]
  · intro h
    exact absurd (congrArg Satellite.name h) (by simp [sA, sB])

/-- C8 (amended): the four ordering operators compare exactly the mean
altitudes `semi_major_axis - 6371`, and they form a total preorder on
element sets (the relation is total and transitive, but not
antisymmetric: see the accompanying counterexample); applying any of
them between an element set and a non-element-set value raises
`TypeError` instead of returning a boolean. -/
theorem altitude_ordering (s o u : Satellite) (v : PyVal) :
    (sat_lt s (PyVal.sat o) = Except.ok true ↔
      s.semi_major_axis - 6371 < o.semi_major_axis - 6371) ∧
    (sat_le s (PyVal.sat o) = Except.ok true ↔
      s.semi_major_axis - 6371 ≤ o.semi_major_axis - 6371) ∧
    (sat_gt s (PyVal.sat o) = Except.ok true ↔
      o.semi_major_axis - 6371 < s.semi_major_axis - 6371) ∧
    (sat_ge s (PyVal.sat o) = Except.ok true ↔
      o.semi_major_axis - 6371 ≤ s.semi_major_axis - 6371) ∧
    (sat_le s (PyVal.sat o) = Except.ok true ∨
      sat_le o (PyVal.sat s) = Except.ok true) ∧
    (sat_le s (PyVal.sat o) = Except.ok true →
      sat_le o (PyVal.sat u) = Except.ok true →
      sat_le s (PyVal.sat u) = Except.ok true) ∧
    ((∀ w, v ≠ PyVal.sat w) →
      isError (sat_lt s v) = true ∧ isError (sat_le s v) = true ∧
      isError (sat_gt s v) = true ∧ isError (sat_ge s v) = true) := by
  have hlt : sat_lt s (PyVal.sat o) = Except.ok true ↔
      s.semi_major_axis - 6371 < o.semi_major_axis - 6371 := by
    simp only [sat_lt, Except.ok.injEq, decide_eq_true_eq, get_altitude]
    norm_num
  have hle : ∀ x y : Satellite, (sat_le x (PyVal.sat y) = Except.ok true ↔
      x.semi_major_axis - 6371 ≤ y.semi_major_axis - 6371) := by
    intro x y
    simp only [sat_le, Except.ok.injEq, decide_eq_true_eq, get_altitude]
    norm_num
  have hgt : sat_gt s (PyVal.sat o) = Except.ok true ↔
      o.semi_major_axis - 6371 < s.semi_major_axis - 6371 := by
    simp only [sat_gt, Except.ok.injEq, decide_eq_true_eq, get_altitude, gt_iff_lt]
    norm_num
  have hge : sat_ge s (PyVal.sat o) = Except.ok true ↔
      o.semi_major_axis - 6371 ≤ s.semi_major_axis - 6371 := by
    simp only [sat_ge, Except.ok.injEq, decide_eq_true_eq, get_altitude, ge_iff_le]
    norm_num
  refine ⟨hlt, hle s o, hgt, hge, ?_, ?_, ?_⟩
  · rcases le_total (s.semi_major_axis - 6371) (o.semi_major_axis - 6371) with h | h
    · exact Or.inl ((hle s o).mpr h)
    · exact Or.inr ((hle o s).mpr h)
  · intro h1 h2
    exact (hle s u).mpr (le_trans ((hle s o).mp h1) ((hle o u).mp h2))
  · intro hv
    cases v with
    | sat w => exact absurd rfl (hv w)
    | str a => exact ⟨rfl, rfl, rfl, rfl⟩
    | num a => exact ⟨rfl, rfl, rfl, rfl⟩
    | dt a => exact ⟨rfl, rfl, rfl, rfl⟩
    | pynone => exact ⟨rfl, rfl, rfl, rfl⟩

/-- Witness for the amended C8 theorem: the spec's own example (the
407 km altitude set compares less-than the 1629 km one) and a `TypeError`
for a string operand. -/
theorem altitude_ordering_witness :
    sat_lt sLow (PyVal.sat sHigh) = Except.ok true ∧
    isError (sat_lt sLow (PyVal.str "x")) = true := by
  constructor
  · exact (altitude_ordering sLow sHigh sLow (PyVal.str "x")).1.mpr
      (by norm_num [sLow, sHigh])
  · exact ((altitude_ordering sLow sHigh sLow (PyVal.str "x")).2.2.2.2.2.2
      (by intro w; simp)).1

/-- C10: equality against any non-element-set value returns `False`
without raising, while the ordering operator on the same operands raises
`TypeError`. -/
theorem foreign_equality_no_error (s : Satellite) (v : PyVal)
    (hv : ∀ w, v ≠ PyVal.sat w) :
    sat_eq s v = false ∧ isError (sat_lt s v) = true := by
  cases v with
  | sat w => exact absurd rfl (hv w)
  | str a => exact ⟨rfl, rfl⟩
  | num a => exact ⟨rfl, rfl⟩
  | dt a => exact ⟨rfl, rfl⟩
  | pynone => exact ⟨rfl, rfl⟩

/-- Witness for C10: a string operand on `s0`. -/
theorem foreign_equality_no_error_witness :
    sat_eq s0 (PyVal.str "hello") = false ∧
    isError (sat_lt s0 (PyVal.str "hello")) = true :=
  foreign_equality_no_error s0 (PyVal.str "hello") (by intro w; simp)

/-- A value acceptable as a name or id: a non-empty string. -/
def okName (v : PyVal) : Prop := ∃ s, v = PyVal.str s ∧ s ≠ ""

/-- A value acceptable as an inclination: a number in `[0, 180]`. -/
def okAngle180 (v : PyVal) : Prop := ∃ x, v = PyVal.num x ∧ 0 ≤ x ∧ x ≤ 180

/-- A value acceptable as an eccentricity: a number in `[0, 1)`. -/
def okEcc (v : PyVal) : Prop := ∃ x, v = PyVal.num x ∧ 0 ≤ x ∧ x < 1

/-- A value acceptable as a semi-major axis: a positive number. -/
def okAxis (v : PyVal) : Prop := ∃ x, v = PyVal.num x ∧ 0 < x

/-- A value acceptable as a mean anomaly: any number. -/
def okNumAny (v : PyVal) : Prop := ∃ x, v = PyVal.num x

/-- A value acceptable as an epoch: a datetime. -/
def okEpoch (v : PyVal) : Prop := ∃ z, v = PyVal.dt z

/-- A value acceptable as a RAAN or argument of perigee: a number in
`[0, 360)`. -/
def okAngle360 (v : PyVal) : Prop := ∃ x, v = PyVal.num x ∧ 0 ≤ x ∧ x < 360

/-- The out-of-domain condition exactly as the claim enumerates it:
inclination outside `[0, 180]`, eccentricity outside `[0, 1)`,
semi-major axis not positive, RAAN or argument of perigee outside
`[0, 360)`, epoch not a datetime, or an empty/non-string name or id. -/
def out_of_domain_listed (name satellite_id inclination eccentricity
    semi_major_axis epoch raan argument_of_perigee : PyVal) : Prop :=
  ¬okAngle180 inclination ∨ ¬okEcc eccentricity ∨ ¬okAxis semi_major_axis ∨
  ¬okAngle360 raan ∨ ¬okAngle360 argument_of_perigee ∨ ¬okEpoch epoch ∨
  ¬okName name ∨ ¬okName satellite_id

/-- The amended out-of-domain condition: additionally, a non-numeric
mean anomaly (which the source also rejects, satellite.py line 63). -/
def out_of_domain_full (name satellite_id inclination eccentricity
    semi_major_axis mean_anomaly epoch raan argument_of_perigee : PyVal) : Prop :=
  out_of_domain_listed name satellite_id inclination eccentricity
    semi_major_axis epoch raan argument_of_perigee ∨ ¬okNumAny mean_anomaly

/-- Binding after a successful step reduces to the continuation. -/
theorem bind_ok_eq {α β : Type} (a : α) (k : α → Except String β) :
    (Except.ok a >>= k : Except String β) = k a := rfl

/-- If every continuation errors, the bind errors (whether or not the
first step does). -/
theorem isError_bind_all {α β : Type} (e : Except String α)
    (k : α → Except String β) (h : ∀ a, isError (k a) = true) :
    isError (e >>= k) = true := by
  cases e with
  | error err => rfl
  | ok a => exact h a

/-- If the first step errors, the bind errors. -/
theorem isError_bind_left {α β : Type} (e : Except String α)
    (k : α → Except String β) (h : isError e = true) :
    isError (e >>= k) = true := by
  cases e with
  | error err => rfl
  | ok a => simp [isError] at h

/-- Successful evaluation of the non-empty-string check. -/
theorem reqNonEmptyStr_ok {v : PyVal} {msg s : String}
    (hv : v = PyVal.str s) (hs : s ≠ "") :
    reqNonEmptyStr v msg = Except.ok s := by
  subst hv
  simp [reqNonEmptyStr, hs]

/-- The non-empty-string check errors on every unacceptable value. -/
theorem reqNonEmptyStr_error {v : PyVal} {msg : String} (h : ¬okName v) :
    isError (reqNonEmptyStr v msg) = true := by
  cases v with
  | str s =>
    rcases eq_or_ne s "" with rfl | hs
    · simp [reqNonEmptyStr, isError]
    · exact absurd ⟨s, rfl, hs⟩ h
  | num x => rfl
  | dt z => rfl
  | sat w => rfl
  | pynone => rfl

/-- Successful evaluation of a numeric range check. -/
theorem reqNum_ok {bad : ℝ → Prop} [DecidablePred bad] {v : PyVal}
    {msg : String} {x : ℝ} (hv : v = PyVal.num x) (hx : ¬bad x) :
    reqNum v bad msg = Except.ok x := by
  subst hv
  simp [reqNum, hx]

/-- A numeric range check errors whenever every numeric reading of the
value is bad (in particular for non-numeric values). -/
theorem reqNum_error {bad : ℝ → Prop} [DecidablePred bad] {v : PyVal}
    {msg : String} (h : ∀ x, v = PyVal.num x → bad x) :
    isError (reqNum v bad msg) = true := by
  cases v with
  | num x =>
    have : bad x := h x rfl
    simp [reqNum, this, isError]
  | str s => rfl
  | dt z => rfl
  | sat w => rfl
  | pynone => rfl

/-- Successful evaluation of the datetime check. -/
theorem reqDt_ok {v : PyVal} {msg : String} {z : ℤ} (hv : v = PyVal.dt z) :
    reqDt v msg = Except.ok z := by
  subst hv
  rfl

/-- The datetime check errors on every non-datetime value. -/
theorem reqDt_error {v : PyVal} {msg : String} (h : ¬okEpoch v) :
    isError (reqDt v msg) = true := by
  cases v with
  | dt z => exact absurd ⟨z, rfl⟩ h
  | str s => rfl
  | num x => rfl
  | sat w => rfl
  | pynone => rfl

/-- Fully successful construction, with the stored element set. -/
theorem mkSatellite_ok_eq {name satellite_id inclination eccentricity
    semi_major_axis mean_anomaly epoch raan argument_of_perigee : PyVal}
    {ns ids : String} {xi xe xa xm xr xg : ℝ} {z : ℤ}
    (hn : name = PyVal.str ns) (hn2 : ns ≠ "")
    (hi : satellite_id = PyVal.str ids) (hi2 : ids ≠ "")
    (hx : inclination = PyVal.num xi) (hx2 : ¬(xi < 0 ∨ xi > 180))
    (he : eccentricity = PyVal.num xe) (he2 : ¬(xe < 0 ∨ xe ≥ 1))
    (ha : semi_major_axis = PyVal.num xa) (ha2 : ¬(xa ≤ 0))
    (hm : mean_anomaly = PyVal.num xm)
    (hp : epoch = PyVal.dt z)
    (hr : raan = PyVal.num xr) (hr2 : ¬(xr < 0 ∨ xr ≥ 360))
    (hg : argument_of_perigee = PyVal.num xg) (hg2 : ¬(xg < 0 ∨ xg ≥ 360)) :
    mkSatellite name satellite_id inclination eccentricity semi_major_axis
      mean_anomaly epoch raan argument_of_perigee =
      Except.ok ⟨ns, ids, xi, xe, xa, xm, xr, xg, z⟩ := by
  rw [mkSatellite, reqNonEmptyStr_ok hn hn2, bind_ok_eq,
    reqNonEmptyStr_ok hi hi2, bind_ok_eq, reqNum_ok hx hx2, bind_ok_eq,
    reqNum_ok he he2, bind_ok_eq, reqNum_ok ha ha2, bind_ok_eq,
    reqNum_ok hm (by simp), bind_ok_eq, reqDt_ok hp, bind_ok_eq,
    reqNum_ok hr hr2, bind_ok_eq, reqNum_ok hg hg2, bind_ok_eq]

/-- Any out-of-domain field (in the amended sense) makes construction
fail. -/
theorem mkSatellite_error_of {name satellite_id inclination eccentricity
    semi_major_axis mean_anomaly epoch raan argument_of_perigee : PyVal}
    (h : out_of_domain_full name satellite_id inclination eccentricity
      semi_major_axis mean_anomaly epoch raan argument_of_perigee) :
    isError (mkSatellite name satellite_id inclination eccentricity
      semi_major_axis mean_anomaly epoch raan argument_of_perigee) = true := by
  rw [mkSatellite]
  rcases h with (h | h | h | h | h | h | h | h) | h
  · refine isError_bind_all _ _ fun n => ?_
    refine isError_bind_all _ _ fun sid => ?_
    refine isError_bind_left _ _ (reqNum_error ?_)
    intro x hx
    by_contra hb
    push_neg at hb
    exact h ⟨x, hx, hb⟩
  · refine isError_bind_all _ _ fun n => ?_
    refine isError_bind_all _ _ fun sid => ?_
    refine isError_bind_all _ _ fun incl => ?_
    refine isError_bind_left _ _ (reqNum_error ?_)
    intro x hx
    by_contra hb
    push_neg at hb
    exact h ⟨x, hx, hb⟩
  · refine isError_bind_all _ _ fun n => ?_
    refine isError_bind_all _ _ fun sid => ?_
    refine isError_bind_all _ _ fun incl => ?_
    refine isError_bind_all _ _ fun ecc => ?_
    refine isError_bind_left _ _ (reqNum_error ?_)
    intro x hx
    by_contra hb
    push_neg at hb
    exact h ⟨x, hx, hb⟩
  · refine isError_bind_all _ _ fun n => ?_
    refine isError_bind_all _ _ fun sid => ?_
    refine isError_bind_all _ _ fun incl => ?_
    refine isError_bind_all _ _ fun ecc => ?_
    refine isError_bind_all _ _ fun sma => ?_
    refine isError_bind_all _ _ fun ma => ?_
    refine isError_bind_all _ _ fun ep => ?_
    refine isError_bind_left _ _ (reqNum_error ?_)
    intro x hx
    by_contra hb
    push_neg at hb
    exact h ⟨x, hx, hb⟩
  · refine isError_bind_all _ _ fun n => ?_
    refine isError_bind_all _ _ fun sid => ?_
    refine isError_bind_all _ _ fun incl => ?_
    refine isError_bind_all _ _ fun ecc => ?_
    refine isError_bind_all _ _ fun sma => ?_
    refine isError_bind_all _ _ fun ma => ?_
    refine isError_bind_all _ _ fun ep => ?_
    refine isError_bind_all _ _ fun om => ?_
    refine isError_bind_left _ _ (reqNum_error ?_)
    intro x hx
    by_contra hb
    push_neg at hb
    exact h ⟨x, hx, hb⟩
  · refine isError_bind_all _ _ fun n => ?_
    refine isError_bind_all _ _ fun sid => ?_
    refine isError_bind_all _ _ fun incl => ?_
    refine isError_bind_all _ _ fun ecc => ?_
    refine isError_bind_all _ _ fun sma => ?_
    refine isError_bind_all _ _ fun ma => ?_
    exact isError_bind_left _ _ (reqDt_error h)
  · exact isError_bind_left _ _ (reqNonEmptyStr_error h)
  · refine isError_bind_all _ _ fun n => ?_
    exact isError_bind_left _ _ (reqNonEmptyStr_error h)
  · refine isError_bind_all _ _ fun n => ?_
    refine isError_bind_all _ _ fun sid => ?_
    refine isError_bind_all _ _ fun incl => ?_
    refine isError_bind_all _ _ fun ecc => ?_
    refine isError_bind_all _ _ fun sma => ?_
    refine isError_bind_left _ _ (reqNum_error ?_)
    intro x hx
    exact absurd ⟨x, hx⟩ h

/-- C9 (amended): construction fails exactly when some field is out of
domain — inclination outside `[0, 180]`, eccentricity outside `[0, 1)`,
semi-major axis not positive, RAAN or argument of perigee outside
`[0, 360)`, epoch not a datetime, an empty or non-string name or id, or
(the amendment) a non-numeric mean anomaly — and once construction
succeeds, a position query at any non-negative time returns a value
(no validation runs during propagation; period and the altitude
accessors are total functions). -/
theorem construction_validation (name satellite_id inclination eccentricity
    semi_major_axis mean_anomaly epoch raan argument_of_perigee : PyVal) :
    (isError (mkSatellite name satellite_id inclination eccentricity
        semi_major_axis mean_anomaly epoch raan argument_of_perigee) = true ↔
      out_of_domain_full name satellite_id inclination eccentricity
        semi_major_axis mean_anomaly epoch raan argument_of_perigee) ∧
    (∀ sat, mkSatellite name satellite_id inclination eccentricity
        semi_major_axis mean_anomaly epoch raan argument_of_perigee =
        Except.ok sat → ∀ t : ℝ, 0 ≤ t →
      calculate_position sat t = Except.ok (position_core sat t)) := by
  constructor
  · constructor
    · intro herr
      by_contra hnot
      rw [out_of_domain_full, out_of_domain_listed] at hnot
      push_neg at hnot
      obtain ⟨⟨hincl, hecc, haxis, hraan, hargp, hepoch, hname, hid⟩, hma⟩ := hnot
      obtain ⟨ns, hns, hns2⟩ := hname
      obtain ⟨ids, hids, hids2⟩ := hid
      obtain ⟨xi, hxi, hxi2⟩ := hincl
      obtain ⟨xe, hxe, hxe2⟩ := hecc
      obtain ⟨xa, hxa, hxa2⟩ := haxis
      obtain ⟨xm, hxm⟩ := hma
      obtain ⟨z, hz⟩ := hepoch
      obtain ⟨xr, hxr, hxr2⟩ := hraan
      obtain ⟨xg, hxg, hxg2⟩ := hargp
      rw [mkSatellite_ok_eq hns hns2 hids hids2 hxi
        (by push_neg; exact hxi2) hxe (by push_neg; exact hxe2) hxa
        (by push_neg; linarith [hxa2]) hxm hz hxr
        (by push_neg; exact hxr2) hxg (by push_neg; exact hxg2)] at herr
      simp [isError] at herr
    · exact mkSatellite_error_of
  · intro sat _ t ht
    rw [calculate_position, if_neg (not_lt.mpr ht)]

/-- C9 counterexample: a construction whose every field the claim lists
is in domain, but whose mean anomaly is a string.  The source rejects it
(satellite.py lines 63-64), so construction raises although the claim's
enumerated condition does not hold: the claimed equivalence is false. -/
theorem construction_validation_counterexample :
    isError (mkSatellite (PyVal.str "Sat") (PyVal.str "S1") (PyVal.num 10)
      (PyVal.num 0) (PyVal.num 7000) (PyVal.str "oops") (PyVal.dt 0)
      (PyVal.num 0) (PyVal.num 0)) = true ∧
    ¬out_of_domain_listed (PyVal.str "Sat") (PyVal.str "S1") (PyVal.num 10)
      (PyVal.num 0) (PyVal.num 7000) (PyVal.dt 0) (PyVal.num 0)
      (PyVal.num 0) := by
  constructor
  · apply mkSatellite_error_of
    right
    rintro ⟨x, hx⟩
    cases hx
  · rw [out_of_domain_listed]
    push_neg
    refine ⟨⟨10, rfl, by norm_num⟩, ⟨0, rfl, by norm_num⟩,
      ⟨7000, rfl, by norm_num⟩, ⟨0, rfl, by norm_num⟩,
      ⟨0, rfl, by norm_num⟩, ⟨0, rfl⟩, ⟨"Sat", rfl, by simp⟩,
      ⟨"S1", rfl, by simp⟩⟩

/-- Witness for the amended C9 theorem: a fully valid construction
(ISS-like elements) stores the fields and then a position query at time
0 succeeds. -/
theorem construction_validation_witness :
    calculate_position ⟨"ISS", "25544", 51.6, 0.001, 6778, 0, 0, 0, 0⟩ 0 =
      Except.ok (position_core ⟨"ISS", "25544", 51.6, 0.001, 6778, 0, 0, 0, 0⟩ 0) :=
  (construction_validation (PyVal.str "ISS") (PyVal.str "25544")
    (PyVal.num 51.6) (PyVal.num 0.001) (PyVal.num 6778) (PyVal.num 0)
    (PyVal.dt 0) (PyVal.num 0) (PyVal.num 0)).2
    ⟨"ISS", "25544", 51.6, 0.001, 6778, 0, 0, 0, 0⟩
    (mkSatellite_ok_eq rfl (by simp) rfl (by simp) rfl (by norm_num) rfl
      (by norm_num) rfl (by norm_num) rfl rfl rfl (by norm_num) rfl
      (by norm_num)) 0 le_rfl

/-- Closed form of the generator loop: run with enough budget and a
positive resolution, from `current` it yields exactly the arithmetic
progression `current + k * res` for `k` up to
`floor ((total - current) / res)`, or nothing when `current` already
exceeds `total`. -/
theorem gen_loop_spec (pos : ℝ → ℝ × ℝ × ℝ) (total res : ℝ) (hres : 0 < res) :
    ∀ (fuel : ℕ) (current : ℝ),
      ⌊(total - current) / res⌋ < (fuel : ℤ) →
      gen_loop pos total res current fuel =
        if current ≤ total then
          (List.range ((⌊(total - current) / res⌋).toNat + 1)).map
            (fun (k : ℕ) => (current + (k : ℝ) * res, pos (current + (k : ℝ) * res)))
        else [] := by
  intro fuel
  induction fuel with
  | zero =>
    intro current hf
    push_cast at hf
    have h2 : ¬ current ≤ total := by
      intro hct
      have h1 : 0 ≤ (total - current) / res := div_nonneg (by linarith) hres.le
      have := Int.floor_nonneg.mpr h1
      omega
    simp only [gen_loop]
    rw [if_neg h2]
  | succ fuel ih =>
    intro current hf
    by_cases hc : current ≤ total
    · have hN0 : 0 ≤ ⌊(total - current) / res⌋ :=
        Int.floor_nonneg.mpr (div_nonneg (by linarith) hres.le)
      have hshift : ⌊(total - (current + res)) / res⌋ =
          ⌊(total - current) / res⌋ - 1 := by
        have harg : (total - (current + res)) / res =
            (total - current) / res - 1 := by
          field_simp
          ring
        rw [harg]
        exact_mod_cast Int.floor_sub_int ((total - current) / res) 1
      have hflt : ⌊(total - (current + res)) / res⌋ < (fuel : ℤ) := by
        rw [hshift]
        push_cast at hf
        omega
      have hrec := ih (current + res) hflt
      simp only [gen_loop]
      rw [if_pos hc, if_pos hc, hrec]
      by_cases hc2 : current + res ≤ total
      · rw [if_pos hc2]
        have hN1 : 1 ≤ ⌊(total - current) / res⌋ := by
          apply Int.le_floor.mpr
          push_cast
          rw [le_div_iff₀ hres]
          linarith
        have htoNat : (⌊(total - current) / res⌋).toNat + 1 =
            ((⌊(total - (current + res)) / res⌋).toNat + 1) + 1 := by
          rw [hshift]
          omega
        conv_rhs => rw [htoNat, List.range_succ_eq_map, List.map_cons, List.map_map]
        congr 1
        · simp
        · apply List.map_congr_left
          intro k hk
          simp only [Function.comp_apply]
          push_cast
          rw [show current + ((k : ℝ) + 1) * res = current + res + (k : ℝ) * res
            from by ring]
      · rw [if_neg hc2]
        have hlt1 : (total - current) / res < 1 := by
          rw [div_lt_one hres]
          linarith
        have hN0' : ⌊(total - current) / res⌋ = 0 := by
          rw [Int.floor_eq_iff]
          constructor
          · push_cast
            exact div_nonneg (by linarith) hres.le
          · push_cast
            linarith
        rw [hN0']
        simp [List.range_succ]
    · simp only [gen_loop]
      rw [if_neg hc, if_neg hc]

/-- The full yield sequence of a fresh generator for positive duration
and resolution: time values `k * (resolution_minutes * 60)` for every
`k` with `k * res ≤ total`, i.e. `k ≤ floor (60 * th / rm)` — the
endpoint sample is included. -/
theorem generator_yield_times (s : Satellite) (th rm : ℝ)
    (hth : 0 < th) (hrm : 0 < rm) :
    generate_position_generator s th rm =
      (List.range ((⌊th * 60 / rm⌋).toNat + 1)).map
        (fun (k : ℕ) => ((k : ℝ) * (rm * 60),
          position_core s ((k : ℝ) * (rm * 60)))) := by
  have hres : 0 < rm * 60 := by linarith
  have hfuel : ⌊(th * 3600 - 0) / (rm * 60)⌋ <
      (((⌊th * 3600 / (rm * 60)⌋).toNat + 2 : ℕ) : ℤ) := by
    rw [sub_zero]
    push_cast
    have := Int.self_le_toNat ⌊th * 3600 / (rm * 60)⌋
    omega
  simp only [generate_position_generator]
  rw [gen_loop_spec (position_core s) (th * 3600) (rm * 60) hres _ 0 hfuel]
  rw [if_pos (by nlinarith : (0 : ℝ) ≤ th * 3600)]
  have hflarg : (th * 3600 - 0) / (rm * 60) = th * 60 / rm := by
    rw [sub_zero]
    rw [div_eq_div_iff (by linarith : (0 : ℝ) < rm * 60).ne' hrm.ne']
    ring
  rw [hflarg]
  apply List.map_congr_left
  intro k _
  rw [zero_add]

/-- The materialized sampler for positive duration and resolution with
smoothing factor 1: it returns the time values `i * (rm * 60)` for
`i` strictly below `floor (60 * th / rm)` — the endpoint sample is
excluded by the truncated point count. -/
theorem predict_time_points (s : Satellite) (th rm : ℝ)
    (hth : 0 < th) (hrm : 0 < rm) :
    predict_future_positions s th rm 1 =
      Except.ok
        ((List.range ((⌊th * 60 / rm⌋).toNat)).map
          (fun (i : ℕ) => (i : ℝ) * (rm * 60)),
         ((List.range ((⌊th * 60 / rm⌋).toNat)).map
          (fun (i : ℕ) => (i : ℝ) * (rm * 60))).map (position_core s)) := by
  simp only [predict_future_positions]
  rw [if_neg (not_le.mpr hth), if_neg (not_le.mpr hrm), div_one]
  have hkeep : ∀ tp ∈ (List.range ((⌊th * 60 / rm⌋).toNat)).map
      (fun (i : ℕ) => (i : ℝ) * rm * 60),
      (decide (tp ≤ th * 3600)) = true := by
    intro tp htp
    obtain ⟨i, hi, rfl⟩ := List.mem_map.mp htp
    simp only [decide_eq_true_eq]
    have h0 : 0 ≤ th * 60 / rm := div_nonneg (by linarith) hrm.le
    have hNcast : (((⌊th * 60 / rm⌋).toNat : ℕ) : ℝ) ≤ th * 60 / rm := by
      rw [show (((⌊th * 60 / rm⌋).toNat : ℕ) : ℝ) =
          ((((⌊th * 60 / rm⌋).toNat : ℕ) : ℤ) : ℝ) from by push_cast; ring]
      rw [Int.toNat_of_nonneg (Int.floor_nonneg.mpr h0)]
      exact Int.floor_le _
    have hi1 : (i : ℝ) + 1 ≤ (((⌊th * 60 / rm⌋).toNat : ℕ) : ℝ) := by
      exact_mod_cast Nat.succ_le_of_lt (List.mem_range.mp hi)
    have h1 : (i : ℝ) * rm ≤ (th * 60 / rm - 1) * rm :=
      mul_le_mul_of_nonneg_right (by linarith) hrm.le
    have h2 : (th * 60 / rm - 1) * rm = th * 60 - rm := by
      field_simp
    linarith
  rw [List.filter_eq_self.mpr hkeep]
  rw [List.map_congr_left
    (fun (i : ℕ) _ => show (i : ℝ) * rm * 60 = (i : ℝ) * (rm * 60) from by ring)]

/-- C2 (amended): for positive duration and resolution, the fully
materialized sampler and the lazy generator walk the same arithmetic
progression of elapsed times, but they are not equal element for
element: the materialized list is a strict initial segment of the
generator's yields, and the generator additionally yields exactly one
final sample at `floor (60 * th / rm) * (rm * 60)` (its bound
`current <= total` includes the endpoint, while the materialized point
count `int (total / res)` excludes it). -/
theorem sampling_generator_vs_list (s : Satellite) (th rm : ℝ)
    (hth : 0 < th) (hrm : 0 < rm) :
    predict_future_positions s th rm 1 =
      Except.ok
        ((List.range ((⌊th * 60 / rm⌋).toNat)).map
          (fun (i : ℕ) => (i : ℝ) * (rm * 60)),
         ((List.range ((⌊th * 60 / rm⌋).toNat)).map
          (fun (i : ℕ) => (i : ℝ) * (rm * 60))).map (position_core s)) ∧
    (generate_position_generator s th rm).map Prod.fst =
      (List.range ((⌊th * 60 / rm⌋).toNat)).map
        (fun (i : ℕ) => (i : ℝ) * (rm * 60)) ++
      [(((⌊th * 60 / rm⌋).toNat : ℕ) : ℝ) * (rm * 60)] := by
  refine ⟨predict_time_points s th rm hth hrm, ?_⟩
  rw [generator_yield_times s th rm hth hrm, List.map_map, List.range_succ,
    List.map_append]
  rfl

/-- Witness for the amended C2 theorem at duration 1 h, resolution
10 min on `s0`. -/
theorem sampling_generator_vs_list_witness :
    (generate_position_generator s0 1 10).map Prod.fst =
      (List.range ((⌊(1 : ℝ) * 60 / 10⌋).toNat)).map
        (fun (i : ℕ) => (i : ℝ) * (10 * 60)) ++
      [(((⌊(1 : ℝ) * 60 / 10⌋).toNat : ℕ) : ℝ) * (10 * 60)] :=
  (sampling_generator_vs_list s0 1 10 (by norm_num) (by norm_num)).2

/-- Evaluation of the sample count at duration 1 h, resolution 10 min. -/
theorem floor_six : (⌊(1 : ℝ) * 60 / 10⌋).toNat = 6 := by
  have h : (1 : ℝ) * 60 / 10 = ((6 : ℤ) : ℝ) := by norm_num
  rw [h, Int.floor_intCast]
  rfl

/-- C2 counterexample: on `s0` with a 1-hour duration and a 10-minute
resolution the materialized sampler produces 6 elapsed-time values
(0 to 3000 s) while a fresh generator yields 7 (0 to 3600 s, endpoint
included): the two sequences are not equal element for element. -/
theorem sampling_counterexample :
    (predict_future_positions s0 1 10 1).map Prod.fst ≠
      Except.ok ((generate_position_generator s0 1 10).map Prod.fst) := by
  intro h
  rw [predict_time_points s0 1 10 (by norm_num) (by norm_num),
    generator_yield_times s0 1 10 (by norm_num) (by norm_num)] at h
  simp only [Except.map, Except.ok.injEq] at h
  have hlen := congrArg List.length h
  simp only [List.length_map, List.length_range, floor_six] at hlen
  omega

/-- Adding one full modulus to the argument leaves the Python float
modulus unchanged. -/
theorem pymod_add_self (x m : ℝ) (hm : m ≠ 0) : pymod (x + m) m = pymod x m := by
  rw [pymod, pymod]
  have harg : (x + m) / m = x / m + 1 := by
    field_simp
  rw [harg]
  rw [show (x / m + 1 : ℝ) = x / m + (1 : ℤ) from by push_cast; ring]
  rw [Int.floor_add_int]
  push_cast
  ring

/-- Supporting result on periodicity (related to the exact-real core of
the periodicity property): the mean motion times the period is exactly
one revolution, so the mean anomaly advances by exactly `2 * pi` over
one orbital period. -/
theorem mean_anomaly_period (s : Satellite) (ha : 0 < s.semi_major_axis) (t : ℝ) :
    mean_anomaly_at s (t + calculate_orbital_period s) =
      mean_anomaly_at s t + 2 * Real.pi := by
  have ha3 : (0 : ℝ) < s.semi_major_axis ^ 3 := by positivity
  have hmu : (0 : ℝ) < 398600.4418 := by norm_num
  have hnT : Real.sqrt (398600.4418 / s.semi_major_axis ^ 3) *
      (2 * Real.pi * Real.sqrt (s.semi_major_axis ^ 3 / 398600.4418)) =
      2 * Real.pi := by
    rw [show Real.sqrt (398600.4418 / s.semi_major_axis ^ 3) *
        (2 * Real.pi * Real.sqrt (s.semi_major_axis ^ 3 / 398600.4418)) =
        2 * Real.pi * (Real.sqrt (398600.4418 / s.semi_major_axis ^ 3) *
          Real.sqrt (s.semi_major_axis ^ 3 / 398600.4418)) from by ring]
    rw [← Real.sqrt_mul (by positivity)]
    rw [show 398600.4418 / s.semi_major_axis ^ 3 *
        (s.semi_major_axis ^ 3 / 398600.4418) = 1 from by
      field_simp]
    rw [Real.sqrt_one]
    ring
  rw [mean_anomaly_at, mean_anomaly_at, calculate_orbital_period]
  rw [mul_add, hnT]
  ring

/-- Supporting result on periodicity: for eccentricity at least `0.8`
the solver's initial guess is the constant `pi` and its normalized
target is periodic in the mean anomaly, so the position computation is
exactly periodic with the orbital period.  (For eccentricity in
`(0, 0.8)` the initial guess changes by `2 * pi` across one period,
the two Newton runs differ, and only a convergence analysis could bound
their distance.) -/
theorem high_ecc_exact_periodicity (s : Satellite) (ha : 0 < s.semi_major_axis)
    (he : 0.8 ≤ s.eccentricity) (t : ℝ) :
    position_core s (t + calculate_orbital_period s) = position_core s t := by
  have hsolve : solve_kepler_equation s
      (mean_anomaly_at s (t + calculate_orbital_period s)) (1e-10) 100 =
      solve_kepler_equation s (mean_anomaly_at s t) (1e-10) 100 := by
    rw [mean_anomaly_period s ha t]
    rw [solve_kepler_equation, solve_kepler_equation]
    have hE0 : ∀ x : ℝ, keplerE0 s x = Real.pi := by
      intro x
      rw [keplerE0, if_neg (not_lt.mpr he)]
    rw [hE0, hE0]
    rw [pymod_add_self _ _ (by positivity : (2 * Real.pi : ℝ) ≠ 0)]
  have hnu : nu_at s (t + calculate_orbital_period s) = nu_at s t := by
    rw [nu_at, nu_at, hsolve]
  have hrad : radius_at s (t + calculate_orbital_period s) = radius_at s t := by
    rw [radius_at, radius_at, hnu]
  rw [position_core_eq, position_core_eq, hnu, hrad]
